import Mathlib

set_option maxRecDepth 4000
set_option maxHeartbeats 1000000

/-!
Verification development for the outfit (ship equipment) subsystem of a 2D
space game, shallowly embedding src/outfit.c.

Modelling conventions:
- C doubles are embedded as exact rationals; C ints as Lean Int.
- The C tagged union `outfit.u` is embedded as the sum type OutfitU, with one
  constructor per variant structure plus `uninit` for the calloc-zeroed union
  of an outfit whose type never dispatched a variant parser.  A C read of a
  union member is embedded as an Option-valued view (bltV, bemV, ...): the
  view is `some` when the stored payload is the one being read, and `none`
  when the read would reinterpret memory written through another member.
  Accessors therefore return Option-wrapped values, where an Option.none
  result marks a union read inconsistent with the stored payload.
- External collaborators that are not part of outfit.c (texture loading,
  particle/sound registries) are passed in as an environment ExtEnv of
  abstract functions; textures are represented by their path string.
- The XML layer (xml.h, libxml) is not under src/.  Modelled from the spec:
  an input document is a tree of nodes with a tag, attributes, child nodes,
  a text content and a numeric interpretation of that content (the spec
  treats the document as "a structured (tag/attribute) resource" whose
  leaves express numbers); xml_get / xml_getFloat / xml_getInt read those
  fields, xml_nodeProp looks an attribute up.
- The logging macros WARN/ERR live in log.h, which is not under src/.
  Modelled from the spec: per-entry problems are reported and parsing
  continues (spec section 7, "reported ... but non-fatal"); the two
  document-structural ERR sites in outfit_load are followed in the source
  by `return -1`, which is what the embedding returns.
-/

abbrev Texture := String

/-- Damage types of the damage model (DamageType enum). -/
inductive DamageType where
  | NULL
  | ENERGY
  | KINETIC
  | ION
  | RADIATION
  deriving DecidableEq

/-- Outfit types, in the order of the OutfitType enum: the order is pinned by
the display-name array in outfit_getType, which indexes it by `o->type`. -/
inductive OutfitType where
  | NULL
  | BOLT
  | BEAM
  | TURRET_BOLT
  | TURRET_BEAM
  | MISSILE_DUMB
  | MISSILE_DUMB_AMMO
  | MISSILE_SEEK
  | MISSILE_SEEK_AMMO
  | MISSILE_SEEK_SMART
  | MISSILE_SEEK_SMART_AMMO
  | MISSILE_SWARM
  | MISSILE_SWARM_AMMO
  | MISSILE_SWARM_SMART
  | MISSILE_SWARM_SMART_AMMO
  | MODIFCATION
  | AFTERBURNER
  | JAMMER
  | MAP
  deriving DecidableEq

/-- The non-null outfit types in enum order: the iteration space of the
`type = OUTFIT_TYPE_NULL+1; while (type < OUTFIT_TYPE_SENTINEL)` loop of
outfit_getTech. -/
def allTypes : List OutfitType :=
  [.BOLT, .BEAM, .TURRET_BOLT, .TURRET_BEAM,
   .MISSILE_DUMB, .MISSILE_DUMB_AMMO, .MISSILE_SEEK, .MISSILE_SEEK_AMMO,
   .MISSILE_SEEK_SMART, .MISSILE_SEEK_SMART_AMMO, .MISSILE_SWARM,
   .MISSILE_SWARM_AMMO, .MISSILE_SWARM_SMART, .MISSILE_SWARM_SMART_AMMO,
   .MODIFCATION, .AFTERBURNER, .JAMMER, .MAP]

/-- Bolt weapon variant payload (struct filled by outfit_parseSBolt; also used
for turret bolts).  Field defaults are the calloc zeroes of outfit_parse. -/
structure BoltPayload where
  speed : ℚ := 0
  delay : ℚ := 0
  range : ℚ := 0
  accuracy : ℚ := 0
  energy : ℚ := 0
  damage : ℚ := 0
  dtype : DamageType := .NULL
  gfx_space : Option Texture := none
  spfx : Int := 0
  sound : Int := 0
  deriving DecidableEq

/-- Beam weapon variant payload (struct filled by outfit_parseSBeam; also used
for turret beams).  `delay` is declared in the C struct (outfit_delay reads
u.bem.delay) but never written by the parser, so it stays zero. -/
structure BeamPayload where
  range : ℚ := 0
  turn : ℚ := 0
  energy : ℚ := 0
  damage : ℚ := 0
  dtype : DamageType := .NULL
  delay : ℚ := 0
  colour : Option String := none
  deriving DecidableEq

/-- Launcher variant payload (struct filled by outfit_parseSLauncher). -/
structure LauncherPayload where
  delay : Int := 0
  ammo : Option String := none
  deriving DecidableEq

/-- Ammo variant payload (struct filled by outfit_parseSAmmo). -/
structure AmmoPayload where
  duration : ℚ := 0
  lockon : ℚ := 0
  resist : ℚ := 0
  thrust : ℚ := 0
  turn : ℚ := 0
  speed : ℚ := 0
  energy : ℚ := 0
  damage : ℚ := 0
  dtype : DamageType := .NULL
  gfx_space : Option Texture := none
  spfx : Int := 0
  sound : Int := 0
  deriving DecidableEq

/-- Ship modification variant payload (struct filled by outfit_parseSMod). -/
structure ModPayload where
  thrust : ℚ := 0
  turn : ℚ := 0
  speed : ℚ := 0
  armour : ℚ := 0
  shield : ℚ := 0
  energy : ℚ := 0
  fuel : ℚ := 0
  armour_regen : ℚ := 0
  shield_regen : ℚ := 0
  energy_regen : ℚ := 0
  cargo : Int := 0
  deriving DecidableEq

/-- Afterburner variant payload (struct filled by outfit_parseSAfterburner). -/
structure AfterburnerPayload where
  rumble : ℚ := 0
  sound : Int := 0
  thrust_perc : ℚ := 0
  thrust_abs : ℚ := 0
  speed_perc : ℚ := 0
  speed_abs : ℚ := 0
  energy : ℚ := 0
  deriving DecidableEq

/-- Map variant payload (struct filled by outfit_parseSMap). -/
structure MapPayload where
  radius : Int := 0
  deriving DecidableEq

/-- Jammer variant payload (struct filled by outfit_parseSJammer). -/
structure JamPayload where
  range : ℚ := 0
  chance : ℚ := 0
  energy : ℚ := 0
  deriving DecidableEq

/-- The tagged union `u` of the Outfit struct: one constructor per variant,
plus `uninit` for the all-zero union of an outfit that never dispatched a
variant parser (type NULL). -/
inductive OutfitU where
  | uninit
  | blt (b : BoltPayload)
  | bem (b : BeamPayload)
  | lau (l : LauncherPayload)
  | amm (a : AmmoPayload)
  | mod (m : ModPayload)
  | afb (a : AfterburnerPayload)
  | map (m : MapPayload)
  | jam (j : JamPayload)
  deriving DecidableEq

/-- Read of the union through member `u.blt`: defined exactly when the stored
payload is the bolt one. -/
def OutfitU.bltV : OutfitU → Option BoltPayload
  | .blt b => some b
  | _ => none

/-- Read of the union through member `u.bem`. -/
def OutfitU.bemV : OutfitU → Option BeamPayload
  | .bem b => some b
  | _ => none

/-- Read of the union through member `u.lau`. -/
def OutfitU.lauV : OutfitU → Option LauncherPayload
  | .lau l => some l
  | _ => none

/-- Read of the union through member `u.amm`. -/
def OutfitU.ammV : OutfitU → Option AmmoPayload
  | .amm a => some a
  | _ => none

/-- The Outfit record (struct Outfit).  Pointer-valued fields that may be NULL
are Option; `properties` is the bit-set (OUTFIT_PROP_WEAP_SECONDARY = 1).
Defaults are the CALLOC_ONE zeroes of outfit_parse. -/
structure Outfit where
  name : Option String := none
  type : OutfitType := .NULL
  max : Int := 0
  tech : Int := 0
  mass : Int := 0
  price : Int := 0
  description : Option String := none
  gfx_store : Option Texture := none
  properties : Nat := 0
  u : OutfitU := .uninit
  deriving DecidableEq

/-- outfit_isWeapon: fixed mounted weapon (bolt or beam). -/
def outfit_isWeapon (o : Outfit) : Bool :=
  o.type = .BOLT || o.type = .BEAM

/-- outfit_isBolt: bolt type weapon (includes bolt turrets). -/
def outfit_isBolt (o : Outfit) : Bool :=
  o.type = .BOLT || o.type = .TURRET_BOLT

/-- outfit_isBeam: beam type weapon (includes beam turrets). -/
def outfit_isBeam (o : Outfit) : Bool :=
  o.type = .BEAM || o.type = .TURRET_BEAM

/-- outfit_isLauncher: weapon launcher. -/
def outfit_isLauncher (o : Outfit) : Bool :=
  o.type = .MISSILE_DUMB || o.type = .MISSILE_SEEK ||
  o.type = .MISSILE_SEEK_SMART || o.type = .MISSILE_SWARM ||
  o.type = .MISSILE_SWARM_SMART

/-- outfit_isAmmo: ammo for a launcher. -/
def outfit_isAmmo (o : Outfit) : Bool :=
  o.type = .MISSILE_DUMB_AMMO || o.type = .MISSILE_SEEK_AMMO ||
  o.type = .MISSILE_SEEK_SMART_AMMO || o.type = .MISSILE_SWARM_AMMO ||
  o.type = .MISSILE_SWARM_SMART_AMMO

/-- outfit_isSeeker: seeking weapon. -/
def outfit_isSeeker (o : Outfit) : Bool :=
  o.type = .MISSILE_SEEK_AMMO || o.type = .MISSILE_SEEK_SMART_AMMO ||
  o.type = .MISSILE_SWARM_AMMO || o.type = .MISSILE_SWARM_SMART_AMMO

/-- outfit_isTurret: turret class weapon. -/
def outfit_isTurret (o : Outfit) : Bool :=
  o.type = .TURRET_BOLT || o.type = .TURRET_BEAM

/-- outfit_isMod: ship modification. -/
def outfit_isMod (o : Outfit) : Bool :=
  o.type = .MODIFCATION

/-- outfit_isAfterburner. -/
def outfit_isAfterburner (o : Outfit) : Bool :=
  o.type = .AFTERBURNER

/-- outfit_isJammer. -/
def outfit_isJammer (o : Outfit) : Bool :=
  o.type = .JAMMER

/-- outfit_isMap. -/
def outfit_isMap (o : Outfit) : Bool :=
  o.type = .MAP

/-- outfit_calcDamage: real shield damage, armour damage and knockback
modifier for a damage type and raw damage amount. -/
def outfit_calcDamage (dtype : DamageType) (dmg : ℚ) : ℚ × ℚ × ℚ :=
  match dtype with
  | .ENERGY => (dmg * 1.1, dmg * 0.7, 0.1)
  | .KINETIC => (dmg * 0.8, dmg * 1.2, 1)
  | .ION => (dmg, dmg, 0.4)
  | .RADIATION => (0.15, dmg, 0.8)
  | .NULL => (0, 0, 0)

/-- outfit_gfx: the outfit's space graphic.  Outer Option: none marks a union
read through a member that does not hold the stored payload; inner Option is
the glTexture* handle with none as the NULL sentinel. -/
def outfit_gfx (o : Outfit) : Option (Option Texture) :=
  if outfit_isBolt o then (o.u.bltV).map (fun b => b.gfx_space)
  else if outfit_isAmmo o then (o.u.ammV).map (fun a => a.gfx_space)
  else if outfit_isTurret o then (o.u.bltV).map (fun b => b.gfx_space)
  else some none

/-- outfit_spfx: the outfit's particle effect id, -1 sentinel. -/
def outfit_spfx (o : Outfit) : Option Int :=
  if outfit_isBolt o then (o.u.bltV).map (fun b => b.spfx)
  else if outfit_isAmmo o then (o.u.ammV).map (fun a => a.spfx)
  else if outfit_isTurret o then (o.u.bltV).map (fun b => b.spfx)
  else some (-1)

/-- outfit_damage: the outfit's damage amount, -1 sentinel. -/
def outfit_damage (o : Outfit) : Option ℚ :=
  if outfit_isBolt o then (o.u.bltV).map (fun b => b.damage)
  else if outfit_isBeam o then (o.u.bemV).map (fun b => b.damage)
  else if outfit_isAmmo o then (o.u.ammV).map (fun a => a.damage)
  else if outfit_isTurret o then (o.u.bltV).map (fun b => b.damage)
  else some (-1)

/-- outfit_damageType: the outfit's damage type, DAMAGE_TYPE_NULL sentinel. -/
def outfit_damageType (o : Outfit) : Option DamageType :=
  if outfit_isBolt o then (o.u.bltV).map (fun b => b.dtype)
  else if outfit_isBeam o then (o.u.bemV).map (fun b => b.dtype)
  else if outfit_isAmmo o then (o.u.ammV).map (fun a => a.dtype)
  else if outfit_isTurret o then (o.u.bltV).map (fun b => b.dtype)
  else some .NULL

/-- Truncation of a rational toward zero: the C conversion of a double to an
int on return from outfit_delay. -/
def ratTrunc (q : ℚ) : Int :=
  Int.tdiv q.num q.den

/-- outfit_delay: the outfit's firing delay, -1 sentinel. -/
def outfit_delay (o : Outfit) : Option Int :=
  if outfit_isBolt o then (o.u.bltV).map (fun b => ratTrunc b.delay)
  else if outfit_isBeam o then (o.u.bemV).map (fun b => ratTrunc b.delay)
  else if outfit_isLauncher o then (o.u.lauV).map (fun l => l.delay)
  else if outfit_isTurret o then (o.u.bltV).map (fun b => ratTrunc b.delay)
  else some (-1)

/-- outfit_energy: the outfit's energy usage, -1 sentinel. -/
def outfit_energy (o : Outfit) : Option ℚ :=
  if outfit_isBolt o then (o.u.bltV).map (fun b => b.energy)
  else if outfit_isBeam o then (o.u.bemV).map (fun b => b.energy)
  else if outfit_isAmmo o then (o.u.ammV).map (fun a => a.energy)
  else if outfit_isTurret o then (o.u.bltV).map (fun b => b.energy)
  else some (-1)

/-- outfit_range: the outfit's range, -1 sentinel.  For ammo the range is
derived as 0.8 * speed * duration rather than read from a stored field. -/
def outfit_range (o : Outfit) : Option ℚ :=
  if outfit_isBolt o then (o.u.bltV).map (fun b => b.range)
  else if outfit_isBeam o then (o.u.bemV).map (fun b => b.range)
  else if outfit_isAmmo o then (o.u.ammV).map (fun a => 0.8 * a.speed * a.duration)
  else if outfit_isTurret o then (o.u.bltV).map (fun b => b.range)
  else some (-1)

/-- outfit_speed: the outfit's speed, -1 sentinel. -/
def outfit_speed (o : Outfit) : Option ℚ :=
  if outfit_isBolt o then (o.u.bltV).map (fun b => b.speed)
  else if outfit_isAmmo o then (o.u.ammV).map (fun a => a.speed)
  else if outfit_isTurret o then (o.u.bltV).map (fun b => b.speed)
  else some (-1)

/-- outfit_getType: the specific type in human readable form (the
outfit_typename array indexed by `o->type`). -/
def outfit_getType (o : Outfit) : String :=
  match o.type with
  | .NULL => "NULL"
  | .BOLT => "Bolt Cannon"
  | .BEAM => "Beam Cannon"
  | .TURRET_BOLT => "Bolt Turret"
  | .TURRET_BEAM => "Beam Turret"
  | .MISSILE_DUMB => "Dumb Missile"
  | .MISSILE_DUMB_AMMO => "Dumb Missile Ammunition"
  | .MISSILE_SEEK => "Seeker Missile"
  | .MISSILE_SEEK_AMMO => "Seeker Missile Ammunition"
  | .MISSILE_SEEK_SMART => "Smart Seeker Missile"
  | .MISSILE_SEEK_SMART_AMMO => "Smart Seeker Missile Ammunition"
  | .MISSILE_SWARM => "Swarm Missile"
  | .MISSILE_SWARM_AMMO => "Swarm Missile Ammunition Pack"
  | .MISSILE_SWARM_SMART => "Smart Swarm Missile"
  | .MISSILE_SWARM_SMART_AMMO => "Smart Swarm Missile Ammunition Pack"
  | .MODIFCATION => "Ship Modification"
  | .AFTERBURNER => "Afterburner"
  | .JAMMER => "Jammer"
  | .MAP => "Map"

/-- outfit_getTypeBroad: the outfit's broad type in human readable form
(the predicate chain selecting into outfit_typenamebroad; i stays 0 when no
predicate matches, yielding "NULL"). -/
def outfit_getTypeBroad (o : Outfit) : String :=
  if outfit_isBolt o then "Bolt Weapon"
  else if outfit_isBeam o then "Beam Weapon"
  else if outfit_isLauncher o then "Launcher"
  else if outfit_isAmmo o then "Ammo"
  else if outfit_isTurret o then "Turret"
  else if outfit_isMod o then "Modification"
  else if outfit_isAfterburner o then "Afterburner"
  else if outfit_isJammer o then "Jammer"
  else if outfit_isMap o then "Map"
  else "NULL"

/-- outfit_strToDamageType: damage type from its document string;
unrecognized strings are reported and yield DAMAGE_TYPE_NULL. -/
def outfit_strToDamageType (buf : String) : DamageType :=
  if buf = "energy" then .ENERGY
  else if buf = "kinetic" then .KINETIC
  else if buf = "ion" then .ION
  else if buf = "radiation" then .RADIATION
  else .NULL

/-- outfit_strToOutfitType: outfit type from its document string (the O_CMP
chain); unrecognized strings are reported and yield OUTFIT_TYPE_NULL. -/
def outfit_strToOutfitType (buf : String) : OutfitType :=
  if buf = "bolt" then .BOLT
  else if buf = "beam" then .BEAM
  else if buf = "turret bolt" then .TURRET_BOLT
  else if buf = "turret beam" then .TURRET_BEAM
  else if buf = "missile dumb" then .MISSILE_DUMB
  else if buf = "missile dumb ammo" then .MISSILE_DUMB_AMMO
  else if buf = "missile seek" then .MISSILE_SEEK
  else if buf = "missile seek ammo" then .MISSILE_SEEK_AMMO
  else if buf = "missile smart" then .MISSILE_SEEK_SMART
  else if buf = "missile smart ammo" then .MISSILE_SEEK_SMART_AMMO
  else if buf = "missile swarm" then .MISSILE_SWARM
  else if buf = "missile swarm ammo" then .MISSILE_SWARM_AMMO
  else if buf = "missile swarm smart" then .MISSILE_SWARM_SMART
  else if buf = "missile swarm smart ammo" then .MISSILE_SWARM_SMART_AMMO
  else if buf = "modification" then .MODIFCATION
  else if buf = "afterburner" then .AFTERBURNER
  else if buf = "map" then .MAP
  else if buf = "jammer" then .JAMMER
  else .NULL

/-- The payload the variant-parser dispatch of outfit_parse stores for each
outfit type: bolt kinds fill u.blt, beam kinds u.bem, launchers u.lau, ammo
u.amm, and so on; a NULL type leaves the calloc-zeroed union untouched. -/
def payloadMatches (t : OutfitType) (u : OutfitU) : Bool :=
  match t, u with
  | .NULL, .uninit => true
  | .BOLT, .blt _ => true
  | .TURRET_BOLT, .blt _ => true
  | .BEAM, .bem _ => true
  | .TURRET_BEAM, .bem _ => true
  | .MISSILE_DUMB, .lau _ => true
  | .MISSILE_SEEK, .lau _ => true
  | .MISSILE_SEEK_SMART, .lau _ => true
  | .MISSILE_SWARM, .lau _ => true
  | .MISSILE_SWARM_SMART, .lau _ => true
  | .MISSILE_DUMB_AMMO, .amm _ => true
  | .MISSILE_SEEK_AMMO, .amm _ => true
  | .MISSILE_SEEK_SMART_AMMO, .amm _ => true
  | .MISSILE_SWARM_AMMO, .amm _ => true
  | .MISSILE_SWARM_SMART_AMMO, .amm _ => true
  | .MODIFCATION, .mod _ => true
  | .AFTERBURNER, .afb _ => true
  | .MAP, .map _ => true
  | .JAMMER, .jam _ => true
  | _, _ => false

/-- Modelled from the spec: the structured input document (xml.h and libxml
are not under src/).  A node has a tag, attributes, child nodes, a text
content and the numeric value that content expresses. -/
inductive XmlNode where
  | mk (tag : String) (attrs : List (String × String)) (children : List XmlNode)
       (text : String) (num : ℚ)

/-- The node's tag (xml node name). -/
def XmlNode.tag : XmlNode → String
  | .mk t _ _ _ _ => t

/-- The node's attribute list. -/
def XmlNode.attrs : XmlNode → List (String × String)
  | .mk _ a _ _ _ => a

/-- The node's element children. -/
def XmlNode.children : XmlNode → List XmlNode
  | .mk _ _ c _ _ => c

/-- xml_get: the node's text content. -/
def XmlNode.text : XmlNode → String
  | .mk _ _ _ s _ => s

/-- xml_getFloat: the numeric value of the node's content. -/
def XmlNode.num : XmlNode → ℚ
  | .mk _ _ _ _ q => q

/-- xml_getInt: the node's content as an integer (strtol truncates). -/
def xml_getInt (n : XmlNode) : Int :=
  ratTrunc n.num

/-- xml_nodeProp: an attribute's value, or none when absent. -/
def xml_nodeProp (n : XmlNode) (key : String) : Option String :=
  List.lookup key n.attrs

/-- A document leaf expressing a number, e.g. <speed>800</speed>. -/
def numNode (tag : String) (q : ℚ) : XmlNode :=
  .mk tag [] [] "" q

/-- A document leaf carrying text, e.g. <gfx>laser</gfx>. -/
def textNode (tag : String) (s : String) : XmlNode :=
  .mk tag [] [] s 0

/-- Modelled from the spec: the external graphics / particle / sound
registries (black boxes that map a path or name to an opaque handle or a
failure sentinel). -/
structure ExtEnv where
  gl_newSprite : String → Option Texture
  gl_newImage : String → Option Texture
  spfx_get : String → Int
  sound_get : String → Int

/-- outfit_parseDamage: reads type attribute and damage amount from a damage
node; a non-damage node yields (DAMAGE_TYPE_NULL, 0) and a warning. -/
def outfit_parseDamage (node : XmlNode) : DamageType × ℚ :=
  if node.tag = "damage" then
    (outfit_strToDamageType ((xml_nodeProp node "type").getD ""), node.num)
  else
    (.NULL, 0)

/-- One child of a bolt specific section (body of the outfit_parseSBolt
loop, in source order). -/
def boltStep (env : ExtEnv) (b : BoltPayload) (node : XmlNode) : BoltPayload :=
  if node.tag = "speed" then { b with speed := node.num }
  else if node.tag = "delay" then { b with delay := node.num }
  else if node.tag = "range" then { b with range := node.num }
  else if node.tag = "accuracy" then { b with accuracy := node.num }
  else if node.tag = "energy" then { b with energy := node.num }
  else if node.tag = "gfx" then
    { b with gfx_space := env.gl_newSprite ("gfx/outfit/space/" ++ node.text ++ ".png") }
  else if node.tag = "spfx" then { b with spfx := env.spfx_get node.text }
  else if node.tag = "sound" then { b with sound := env.sound_get node.text }
  else if node.tag = "damage" then
    { b with dtype := (outfit_parseDamage node).1, damage := (outfit_parseDamage node).2 }
  else b

/-- outfit_parseSBolt: bolt specifics; the only non-zero default is
sound = -1. -/
def outfit_parseSBolt (env : ExtEnv) (parent : XmlNode) : BoltPayload :=
  parent.children.foldl (boltStep env) { sound := -1 }

/-- One child of a beam specific section (body of the outfit_parseSBeam
loop). -/
def beamStep (b : BeamPayload) (node : XmlNode) : BeamPayload :=
  if node.tag = "range" then { b with range := node.num }
  else if node.tag = "turn" then { b with turn := node.num }
  else if node.tag = "energy" then { b with energy := node.num }
  else if node.tag = "damage" then
    { b with dtype := (outfit_parseDamage node).1, damage := (outfit_parseDamage node).2 }
  else b

/-- outfit_parseSBeam: beam specifics; afterwards the colour is set to the
fixed cWhite. -/
def outfit_parseSBeam (parent : XmlNode) : BeamPayload :=
  { parent.children.foldl beamStep {} with colour := some "white" }

/-- One child of a launcher specific section. -/
def launcherStep (l : LauncherPayload) (node : XmlNode) : LauncherPayload :=
  if node.tag = "delay" then { l with delay := xml_getInt node }
  else if node.tag = "ammo" then { l with ammo := some node.text }
  else l

/-- outfit_parseSLauncher: launcher specifics. -/
def outfit_parseSLauncher (parent : XmlNode) : LauncherPayload :=
  parent.children.foldl launcherStep {}

/-- One child of an ammo specific section (body of the outfit_parseSAmmo
loop, in source order). -/
def ammoStep (env : ExtEnv) (a : AmmoPayload) (node : XmlNode) : AmmoPayload :=
  if node.tag = "duration" then { a with duration := node.num }
  else if node.tag = "lockon" then { a with lockon := node.num }
  else if node.tag = "resist" then { a with resist := node.num }
  else if node.tag = "thrust" then { a with thrust := node.num }
  else if node.tag = "turn" then { a with turn := node.num }
  else if node.tag = "speed" then { a with speed := node.num }
  else if node.tag = "energy" then { a with energy := node.num }
  else if node.tag = "gfx" then
    { a with gfx_space := env.gl_newSprite ("gfx/outfit/space/" ++ node.text ++ ".png") }
  else if node.tag = "spfx" then { a with spfx := env.spfx_get node.text }
  else if node.tag = "sound" then { a with sound := env.sound_get node.text }
  else if node.tag = "damage" then
    { a with dtype := (outfit_parseDamage node).1, damage := (outfit_parseDamage node).2 }
  else a

/-- outfit_parseSAmmo: ammo specifics; post-processing divides resist by 100
(percent to fraction), exactly once. -/
def outfit_parseSAmmo (env : ExtEnv) (parent : XmlNode) : AmmoPayload :=
  let a := parent.children.foldl (ammoStep env) {}
  { a with resist := a.resist / 100 }

/-- One child of a modification specific section; the three regeneration
rates are divided by 60 (per minute to per second) as they are read. -/
def modStep (m : ModPayload) (node : XmlNode) : ModPayload :=
  if node.tag = "thrust" then { m with thrust := node.num }
  else if node.tag = "turn" then { m with turn := node.num }
  else if node.tag = "speed" then { m with speed := node.num }
  else if node.tag = "armour" then { m with armour := node.num }
  else if node.tag = "shield" then { m with shield := node.num }
  else if node.tag = "energy" then { m with energy := node.num }
  else if node.tag = "fuel" then { m with fuel := node.num }
  else if node.tag = "armour_regen" then { m with armour_regen := node.num / 60 }
  else if node.tag = "shield_regen" then { m with shield_regen := node.num / 60 }
  else if node.tag = "energy_regen" then { m with energy_regen := node.num / 60 }
  else if node.tag = "cargo" then { m with cargo := xml_getInt node }
  else m

/-- outfit_parseSMod: ship modification specifics. -/
def outfit_parseSMod (parent : XmlNode) : ModPayload :=
  parent.children.foldl modStep {}

/-- One child of an afterburner specific section; the percentage fields are
stored as 1 + value/100 as they are read. -/
def afterburnerStep (env : ExtEnv) (a : AfterburnerPayload) (node : XmlNode) :
    AfterburnerPayload :=
  if node.tag = "rumble" then { a with rumble := node.num }
  else if node.tag = "sound" then { a with sound := env.sound_get node.text }
  else if node.tag = "thrust_perc" then { a with thrust_perc := 1 + node.num / 100 }
  else if node.tag = "thrust_abs" then { a with thrust_abs := node.num }
  else if node.tag = "speed_perc" then { a with speed_perc := 1 + node.num / 100 }
  else if node.tag = "speed_abs" then { a with speed_abs := node.num }
  else if node.tag = "energy" then { a with energy := node.num }
  else a

/-- outfit_parseSAfterburner: afterburner specifics; the two multipliers
default to 1 before the loop. -/
def outfit_parseSAfterburner (env : ExtEnv) (parent : XmlNode) : AfterburnerPayload :=
  parent.children.foldl (afterburnerStep env) { thrust_perc := 1, speed_perc := 1 }

/-- outfit_parseSMap: map specifics. -/
def outfit_parseSMap (parent : XmlNode) : MapPayload :=
  parent.children.foldl
    (fun m node => if node.tag = "radius" then { m with radius := xml_getInt node } else m)
    {}

/-- One child of a jammer specific section. -/
def jamStep (j : JamPayload) (node : XmlNode) : JamPayload :=
  if node.tag = "range" then { j with range := node.num }
  else if node.tag = "chance" then { j with chance := node.num }
  else if node.tag = "energy" then { j with energy := node.num }
  else j

/-- outfit_parseSJammer: jammer specifics; afterwards the chance is divided
by 100 (percent to fraction) and the energy by 60 (per minute to per
second), each exactly once. -/
def outfit_parseSJammer (parent : XmlNode) : JamPayload :=
  let j := parent.children.foldl jamStep {}
  { j with chance := j.chance / 100, energy := j.energy / 60 }

/-- atoi of the secondary attribute: nonzero means the flag is set. -/
def atoiNonzero (s : String) : Bool :=
  (s.toInt?.getD 0) ≠ 0

/-- One child of a general section (body of the general loop of
outfit_parse). -/
def generalStep (env : ExtEnv) (o : Outfit) (cur : XmlNode) : Outfit :=
  if cur.tag = "max" then { o with max := xml_getInt cur }
  else if cur.tag = "tech" then { o with tech := xml_getInt cur }
  else if cur.tag = "mass" then { o with mass := xml_getInt cur }
  else if cur.tag = "price" then { o with price := xml_getInt cur }
  else if cur.tag = "description" then { o with description := some cur.text }
  else if cur.tag = "gfx_store" then
    { o with gfx_store := env.gl_newImage ("gfx/outfit/store/" ++ cur.text ++ ".png") }
  else o

/-- One child of an outfit entry (body of the outfit_parse loop): a general
section fills the common fields; a specific section resolves the type
through the registry, reads the optional secondary flag and dispatches to
exactly one variant parser.  A specific section without a type property is
reported; modelled from the spec (log.h is not under src/): per-entry
problems are non-fatal, so the node is skipped. -/
def outfit_parseStep (env : ExtEnv) (temp : Outfit) (node : XmlNode) : Outfit :=
  if node.tag = "general" then
    node.children.foldl (generalStep env) temp
  else if node.tag = "specific" then
    match xml_nodeProp node "type" with
    | none => temp
    | some prop =>
      let t := outfit_strToOutfitType prop
      let temp1 := { temp with type := t }
      let temp2 :=
        match xml_nodeProp node "secondary" with
        | none => temp1
        | some p =>
          if atoiNonzero p then { temp1 with properties := temp1.properties ||| 1 }
          else temp1
      if t = .NULL then temp2
      else if outfit_isBolt temp2 then { temp2 with u := .blt (outfit_parseSBolt env node) }
      else if outfit_isBeam temp2 then { temp2 with u := .bem (outfit_parseSBeam node) }
      else if outfit_isLauncher temp2 then { temp2 with u := .lau (outfit_parseSLauncher node) }
      else if outfit_isAmmo temp2 then { temp2 with u := .amm (outfit_parseSAmmo env node) }
      else if outfit_isMod temp2 then { temp2 with u := .mod (outfit_parseSMod node) }
      else if outfit_isAfterburner temp2 then { temp2 with u := .afb (outfit_parseSAfterburner env node) }
      else if outfit_isMap temp2 then { temp2 with u := .map (outfit_parseSMap node) }
      else if outfit_isJammer temp2 then { temp2 with u := .jam (outfit_parseSJammer node) }
      else temp2
  else temp

/-- outfit_parse: an Outfit from an outfit entry node: the name attribute
(absence is reported, the field stays NULL), then every child section in
order.  Validation warnings are non-fatal and do not change the record. -/
def outfit_parse (env : ExtEnv) (parent : XmlNode) : Outfit :=
  parent.children.foldl (outfit_parseStep env)
    { name := xml_nodeProp parent "name" }

/-- The entry loop of outfit_load: every child of the root tagged "outfit"
is parsed and appended to the stack, in document order. -/
def loadEntries (env : ExtEnv) (ns : List XmlNode) : List Outfit :=
  ns.filterMap (fun n => if n.tag = "outfit" then some (outfit_parse env n) else none)

/-- outfit_load: one bulk load of the document (given as the document's
top-level node list).  A missing or wrong root element, or an empty root,
is fatal: the function returns -1 and the stack stays empty; otherwise it
returns 0 and the stack of parsed entries. -/
def outfit_load (env : ExtEnv) (doc : List XmlNode) : Int × List Outfit :=
  match doc with
  | [] => (-1, [])
  | root :: _ =>
    if root.tag = "Outfits" then
      if root.children.isEmpty then (-1, [])
      else (0, loadEntries env root.children)
    else (-1, [])

/-- outfit_get: linear scan of the stack for the first outfit whose name
matches exactly; a miss is reported and yields the NULL sentinel. -/
def outfit_get (stack : List Outfit) (nm : String) : Option Outfit :=
  match stack with
  | [] => none
  | o :: rest => if o.name = some nm then some o else outfit_get rest nm

/-- The tech filter of outfit_getTech: an outfit is a candidate once when its
tech is at most the base tech, and otherwise once per entry of the tech
array equal to its tech (the inner loop appends on every match). -/
def techFilter (stack : List Outfit) (t0 : Int) (trest : List Int) : List Outfit :=
  stack.flatMap (fun o =>
    if o.tech ≤ t0 then [o]
    else (t0 :: trest).flatMap (fun tj => if tj = o.tech then [o] else []))

/-- One candidate step of the inner scan of outfit_getTech: the running best
is replaced when the candidate has the right type, is strictly cheaper than
the best (or there is no best yet), and its name is not already among the
emitted names. -/
def selStep (t : OutfitType) (ns : List (Option String))
    (best : Option Outfit) (c : Outfit) : Option Outfit :=
  if c.type = t then
    match best with
    | none => if c.name ∈ ns then none else some c
    | some b =>
      if b.price > c.price then (if c.name ∈ ns then some b else some c)
      else some b
  else best

/-- The inner scan of outfit_getTech for one type: the index `price` of the
cheapest fresh-named candidate of the type, or -1 when there is none. -/
def selectCheapest (cands : List Outfit) (t : OutfitType) (ns : List (Option String)) :
    Option Outfit :=
  cands.foldl (selStep t ns) none

/-- Candidates of type t whose name has not been emitted yet: the measure
that bounds the number of emissions for one type. -/
def freshCount (cands : List Outfit) (t : OutfitType) (ns : List (Option String)) : Nat :=
  (cands.filter (fun c => decide (c.type = t ∧ c.name ∉ ns))).length

/-- The per-type emission loop of outfit_getTech, fuelled: as long as the
scan finds a cheapest not-yet-emitted candidate of the type, its name and
price are appended.  The fuel only bounds the recursion; emitType passes
enough fuel for the loop to run to completion. -/
def emitTypeAux (fuel : Nat) (cands : List Outfit) (t : OutfitType)
    (acc : List (Option String × Int)) : List (Option String × Int) :=
  match fuel with
  | 0 => acc
  | fuel' + 1 =>
    match selectCheapest cands t (acc.map Prod.fst) with
    | none => acc
    | some o => emitTypeAux fuel' cands t (acc ++ [(o.name, o.price)])

/-- The per-type emission loop of outfit_getTech, with sufficient fuel
(every emission consumes one fresh-named candidate of the type, so
freshCount bounds the number of iterations). -/
def emitType (cands : List Outfit) (t : OutfitType)
    (acc : List (Option String × Int)) : List (Option String × Int) :=
  emitTypeAux (freshCount cands t (acc.map Prod.fst)) cands t acc

/-- The outer type loop of outfit_getTech: types are visited in enum order,
each appending its emissions to the shared output.  The price of each
emitted outfit is kept alongside its name as ghost instrumentation (the C
code emits only the strdup-ed name). -/
def getTechPairs (cands : List Outfit) : List (Option String × Int) :=
  allTypes.foldl (fun acc t => emitType cands t acc) []

/-- outfit_getTech: names of the outfits passing the tech filter, grouped by
type in enum order and within one type emitted cheapest-first, duplicate
names suppressed.  The tech array is passed as its first element and the
remaining elements. -/
def outfit_getTech (stack : List Outfit) (t0 : Int) (trest : List Int) :
    List (Option String) :=
  (getTechPairs (techFilter stack t0 trest)).map Prod.fst

/-- A list is grouped when equal elements are contiguous: no element equal to
an earlier one appears after a different element has intervened. -/
def IsGroupedList {β : Type} [DecidableEq β] (l : List β) : Prop :=
  ∀ i j k : Fin l.length, i < j → j < k → l.get i = l.get k → l.get j = l.get i

/-- The broad type of the catalog outfit carrying an emitted name. -/
def broadOfName (stack : List Outfit) (n : Option String) : Option String :=
  match n with
  | some s => (outfit_get stack s).map outfit_getTypeBroad
  | none => none

/-- A test environment in which every external registry fails or returns a
zero handle. -/
def env0 : ExtEnv :=
  ⟨fun _ => none, fun _ => none, fun _ => 0, fun _ => 0⟩

/-- A bolt outfit used in concrete test catalogs. -/
def boltA : Outfit :=
  { name := some "A", type := .BOLT, tech := 0, price := 10, u := .blt {} }

/-- A beam outfit used in concrete test catalogs. -/
def beamB : Outfit :=
  { name := some "B", type := .BEAM, tech := 0, price := 5, u := .bem {} }

/-- A bolt turret used in concrete test catalogs. -/
def turretC : Outfit :=
  { name := some "C", type := .TURRET_BOLT, tech := 0, price := 1, u := .blt {} }

/-- A catalog whose getTech listing interleaves the broad types: bolt, beam,
then bolt turret (broad types Bolt Weapon, Beam Weapon, Bolt Weapon). -/
def stack3 : List Outfit :=
  [boltA, beamB, turretC]

/-- A beam turret as outfit_parse builds one: type TURRET_BEAM with the
payload stored through u.bem by outfit_parseSBeam. -/
def tbeamO : Outfit :=
  { name := some "T", type := .TURRET_BEAM,
    u := .bem { range := 300, turn := 2, energy := 10, damage := 7,
                dtype := .ENERGY, colour := some "white" } }

/-- A seeker-ammo payload with non-trivial speed and duration. -/
def ammo1pay : AmmoPayload :=
  { duration := 10, speed := 5, thrust := 1, damage := 3, dtype := .KINETIC }

/-- A seeker-ammo outfit used as witness input. -/
def ammo1 : Outfit :=
  { name := some "M", type := .MISSILE_SEEK_AMMO, u := .amm ammo1pay }

/-- A bolt turret with a bolt payload, used as witness input. -/
def tboltO : Outfit :=
  { name := some "TB", type := .TURRET_BOLT, u := .blt {} }

/-- A jammer outfit used as witness input. -/
def jamO : Outfit :=
  { name := some "J", type := .JAMMER, u := .jam {} }

/-- A well-formed bolt entry of the input document. -/
def goodEntry : XmlNode :=
  .mk "outfit" [("name", "Laser")]
    [.mk "general" [] [numNode "tech" 2, numNode "price" 100] "" 0,
     .mk "specific" [("type", "bolt")] [numNode "speed" 800] "" 0]
    "" 0

/-- An entry whose specific section carries a type string the registry cannot
resolve. -/
def badEntry : XmlNode :=
  .mk "outfit" [("name", "Broken")]
    [.mk "specific" [("type", "unknowntype")] [] "" 0]
    "" 0

/-- A document root with the wrong tag. -/
def badRoot : XmlNode :=
  .mk "NotOutfits" [] [numNode "x" 1] "" 0

/-- A jammer entry with chance 40 percent and energy 12 per minute. -/
def jamEntry : XmlNode :=
  .mk "outfit" [("name", "Jam")]
    [.mk "specific" [("type", "jammer")] [numNode "chance" 40, numNode "energy" 12] "" 0]
    "" 0

/-- An outfit entry whose specific section carries the (arbitrary) type
string s: the shape used to state partial-failure tolerance. -/
def badTypeEntry (nm s : String) (spc : List XmlNode) : XmlNode :=
  .mk "outfit" [("name", nm)] [.mk "specific" [("type", s)] spc "" 0] "" 0

/-- A document whose root element is "Outfits" with the given entries. -/
def mkOutfitsDoc (entries : List XmlNode) : List XmlNode :=
  [.mk "Outfits" [] entries "" 0]

/-- An outfit whose type has been sent through the display-name / registry
round trip. -/
def roundTripped (o : Outfit) : Outfit :=
  { o with type := outfit_strToOutfitType (outfit_getType o) }

/-- An otherwise zeroed outfit of the given type. -/
def Outfit.ofType (t : OutfitType) : Outfit :=
  { type := t }

instance {β : Type} [DecidableEq β] (l : List β) : Decidable (IsGroupedList l) := by
  unfold IsGroupedList
  infer_instance

/-- A beam turret entry as it would appear in the input document. -/
def tbeamEntry : XmlNode :=
  .mk "outfit" [("name", "BeamTurret")]
    [.mk "specific" [("type", "turret beam")]
      [numNode "range" 300, numNode "turn" 2, numNode "energy" 10] "" 0]
    "" 0

/-- C1: for every Outfit whose type is an ammo type, the range accessor
returns exactly 0.8 times the stored speed times the stored duration of the
ammo payload; the range is derived, not read from a stored range field. -/
theorem outfit_range_ammo_derived (o : Outfit) (a : AmmoPayload)
    (hAmmo : outfit_isAmmo o = true) (hu : o.u = OutfitU.amm a) :
    outfit_range o = some (0.8 * a.speed * a.duration) := by
  have ht : o.type = .MISSILE_DUMB_AMMO ∨ o.type = .MISSILE_SEEK_AMMO ∨
      o.type = .MISSILE_SEEK_SMART_AMMO ∨ o.type = .MISSILE_SWARM_AMMO ∨
      o.type = .MISSILE_SWARM_SMART_AMMO := by
    simpa [outfit_isAmmo, or_assoc] using hAmmo
  rcases ht with h | h | h | h | h <;>
    simp [outfit_range, outfit_isBolt, outfit_isBeam, outfit_isAmmo, h, hu, OutfitU.ammV]

/-- Witness for C1 at a concrete seeker-ammo outfit with speed 5 and
duration 10. -/
theorem outfit_range_ammo_derived_witness :
    outfit_isAmmo ammo1 = true ∧ outfit_range ammo1 = some (0.8 * 5 * 10) :=
  ⟨rfl, outfit_range_ammo_derived ammo1 ammo1pay rfl rfl⟩

/-- C3: the damage model returns exactly the coefficient table of the spec
(energy 1.1 / 0.7 / 0.1, kinetic 0.8 / 1.2 / 1.0, ion 1.0 / 1.0 / 0.4,
radiation fixed 0.15 / 1.0 / 0.8), and the undefined damage-type code
yields all three outputs zero. -/
theorem outfit_calcDamage_table (dmg : ℚ) :
    outfit_calcDamage .ENERGY dmg = (1.1 * dmg, 0.7 * dmg, 0.1) ∧
    outfit_calcDamage .KINETIC dmg = (0.8 * dmg, 1.2 * dmg, 1) ∧
    outfit_calcDamage .ION dmg = (1 * dmg, 1 * dmg, 0.4) ∧
    outfit_calcDamage .RADIATION dmg = (0.15, 1 * dmg, 0.8) ∧
    outfit_calcDamage .NULL dmg = (0, 0, 0) := by
  refine ⟨?_, ?_, ?_, ?_, rfl⟩ <;>
    simp [outfit_calcDamage, Prod.ext_iff, mul_comm]

/-- C4 counterexample: for the bolt type, converting to the display name
("Bolt Cannon") and back through the registry yields the NULL type, whose
broad category "NULL" differs from the bolt's broad category
"Bolt Weapon" - the round trip does not preserve the broad category. -/
theorem outfit_getType_roundtrip_fails :
    outfit_strToOutfitType (outfit_getType boltA) = .NULL ∧
    outfit_getTypeBroad (roundTripped boltA) ≠ outfit_getTypeBroad boltA := by
  constructor
  · decide
  · decide

/-- C4 amended: for every outfit type code, converting it to its
human-readable display name and back through the registry yields the NULL
type code, because the display names are not registry strings. -/
theorem outfit_getType_strTo_null (t : OutfitType) :
    outfit_strToOutfitType (outfit_getType (Outfit.ofType t)) = .NULL := by
  cases t <;> decide

/-- C10: bolt turrets have broad type "Bolt Weapon", beam turrets
"Beam Weapon", and the broad type "Turret" is never returned, because the
bolt/beam predicates include the turret types and are tested first. -/
theorem outfit_getTypeBroad_turret_collapse :
    (∀ o : Outfit, o.type = .TURRET_BOLT → outfit_getTypeBroad o = "Bolt Weapon") ∧
    (∀ o : Outfit, o.type = .TURRET_BEAM → outfit_getTypeBroad o = "Beam Weapon") ∧
    (∀ o : Outfit, outfit_getTypeBroad o ≠ "Turret") := by
  refine ⟨?_, ?_, ?_⟩
  · intro o h
    simp [outfit_getTypeBroad, outfit_isBolt, outfit_isBeam, h]
  · intro o h
    simp [outfit_getTypeBroad, outfit_isBolt, outfit_isBeam, h]
  · intro o
    cases h : o.type <;>
      simp [outfit_getTypeBroad, outfit_isBolt, outfit_isBeam, outfit_isLauncher,
        outfit_isAmmo, outfit_isTurret, outfit_isMod, outfit_isAfterburner,
        outfit_isJammer, outfit_isMap, h]

/-- Witness for C10 at a concrete bolt turret, beam turret and jammer. -/
theorem outfit_getTypeBroad_turret_collapse_witness :
    outfit_getTypeBroad tboltO = "Bolt Weapon" ∧
    outfit_getTypeBroad tbeamO = "Beam Weapon" ∧
    outfit_getTypeBroad jamO ≠ "Turret" :=
  ⟨outfit_getTypeBroad_turret_collapse.1 tboltO rfl,
   outfit_getTypeBroad_turret_collapse.2.1 tbeamO rfl,
   outfit_getTypeBroad_turret_collapse.2.2 jamO⟩

/-- C8: evaluation at the failing input.  For a beam turret (type
TURRET_BEAM, payload stored through u.bem by the parser), the accessors
outfit_gfx, outfit_spfx and outfit_speed take the isTurret branch and read
the union through u.blt, a payload inconsistent with the type (result
Option.none in the embedding), instead of returning their sentinels; the
five other accessors dispatch consistently. -/
theorem outfit_accessors_turret_beam_union_misread :
    payloadMatches tbeamO.type tbeamO.u = true ∧
    outfit_gfx tbeamO = none ∧
    outfit_spfx tbeamO = none ∧
    outfit_speed tbeamO = none ∧
    (outfit_damage tbeamO).isSome = true ∧
    (outfit_damageType tbeamO).isSome = true ∧
    (outfit_delay tbeamO).isSome = true ∧
    (outfit_energy tbeamO).isSome = true ∧
    (outfit_range tbeamO).isSome = true := by
  decide

/-- C9: the jammer parser stores the document's percentage chance divided by
100 and the per-minute energy divided by 60, each exactly once; in
particular a jammer entry with chance 40 and energy 12 is stored with
chance 0.40 and per-second energy 0.20, also through the full entry
parser. -/
theorem outfit_parseSJammer_normalizes_once :
    (∀ r c e : ℚ,
      outfit_parseSJammer
          (.mk "specific" [] [numNode "range" r, numNode "chance" c, numNode "energy" e] "" 0) =
        { range := r, chance := c / 100, energy := e / 60 }) ∧
    (∀ env : ExtEnv,
      (outfit_parse env jamEntry).u =
        OutfitU.jam { range := 0, chance := 0.40, energy := 0.20 }) := by
  constructor
  · intro r c e
    rfl
  · intro env
    have h : (outfit_parse env jamEntry).u =
        OutfitU.jam { range := 0, chance := 40 / 100, energy := 12 / 60 } := rfl
    rw [h]
    norm_num

/-- C6: loading a document whose root element is not "Outfits", or whose
root element has no children, fails with -1 and an empty stack, after which
every lookup reports not-found. -/
theorem outfit_load_structural_failure (env : ExtEnv) (root : XmlNode)
    (rest : List XmlNode) (h : root.tag ≠ "Outfits" ∨ root.children = []) :
    outfit_load env (root :: rest) = (-1, []) ∧
    ∀ nm : String, outfit_get (outfit_load env (root :: rest)).2 nm = none := by
  have hl : outfit_load env (root :: rest) = (-1, []) := by
    rcases h with h | h
    · simp [outfit_load, h]
    · simp [outfit_load, h]
  exact ⟨hl, fun nm => by rw [hl]; rfl⟩

/-- Witness for C6 at a concrete document with a wrong root tag. -/
theorem outfit_load_structural_failure_witness :
    outfit_load env0 [badRoot] = (-1, []) ∧
    outfit_get (outfit_load env0 [badRoot]).2 "Laser" = none := by
  have h := outfit_load_structural_failure env0 badRoot []
    (Or.inl (by decide))
  exact ⟨h.1, h.2 "Laser"⟩

/-- C7: outfit_get returns the first entry in insertion order whose name
matches the query exactly, and returns the not-found signal exactly when no
entry matches. -/
theorem outfit_get_first_match_spec (stack : List Outfit) (nm : String) :
    (∀ o : Outfit, outfit_get stack nm = some o →
        ∃ i : Fin stack.length, stack.get i = o ∧ o.name = some nm ∧
          ∀ j : Fin stack.length, (j : ℕ) < (i : ℕ) → (stack.get j).name ≠ some nm) ∧
    (outfit_get stack nm = none ↔ ∀ o ∈ stack, o.name ≠ some nm) := by
  induction stack with
  | nil =>
    exact ⟨fun o h => by simp [outfit_get] at h, by simp [outfit_get]⟩
  | cons a rest ih =>
    constructor
    · intro o h
      by_cases ha : a.name = some nm
      · rw [outfit_get, if_pos ha] at h
        obtain rfl : a = o := by injection h
        refine ⟨⟨0, by simp⟩, rfl, ha, ?_⟩
        intro j hj
        exact absurd hj (by simp)
      · rw [outfit_get, if_neg ha] at h
        obtain ⟨i, hget, hname, hfirst⟩ := ih.1 o h
        refine ⟨⟨i + 1, by simp [Nat.succ_lt_succ i.isLt]⟩, by simpa using hget,
          hname, ?_⟩
        intro j hj
        cases j using Fin.cases with
        | zero => exact ha
        | succ j' =>
          have hj' : (j' : ℕ) < (i : ℕ) := by simpa using hj
          simpa using hfirst j' hj'
    · by_cases ha : a.name = some nm
      · rw [outfit_get, if_pos ha]
        simp [ha]
      · rw [outfit_get, if_neg ha]
        rw [ih.2]
        simp [ha]

/-- Witness for C7: on a one-entry catalog, a query that matches no name is
signalled as absent. -/
theorem outfit_get_first_match_spec_witness :
    outfit_get [boltA] "nope" = none :=
  (outfit_get_first_match_spec [boltA] "nope").2.mpr (by decide)

/-- C5: a document in which one outfit entry has an unresolvable type string
still loads successfully; the stack contains every other entry in order, and
the malformed entry is retained (not discarded) with type NULL and its name
preserved. -/
theorem outfit_load_partial_failure_tolerant (env : ExtEnv)
    (pre post : List XmlNode) (nm s : String) (spc : List XmlNode)
    (hs : outfit_strToOutfitType s = .NULL) :
    outfit_load env (mkOutfitsDoc (pre ++ badTypeEntry nm s spc :: post)) =
      (0, loadEntries env pre ++
            outfit_parse env (badTypeEntry nm s spc) :: loadEntries env post) ∧
    (outfit_parse env (badTypeEntry nm s spc)).type = .NULL ∧
    (outfit_parse env (badTypeEntry nm s spc)).name = some nm := by
  refine ⟨?_, ?_, ?_⟩
  · have hne : (pre ++ badTypeEntry nm s spc :: post).isEmpty = false := by
      cases pre <;> simp [List.isEmpty]
    simp [outfit_load, mkOutfitsDoc, XmlNode.tag, XmlNode.children, hne,
      loadEntries, List.filterMap_append, badTypeEntry]
  · simp [outfit_parse, badTypeEntry, outfit_parseStep, xml_nodeProp,
      XmlNode.children, XmlNode.tag, XmlNode.attrs, List.lookup, hs]
  · simp [outfit_parse, badTypeEntry, outfit_parseStep, xml_nodeProp,
      XmlNode.children, XmlNode.tag, XmlNode.attrs, List.lookup, hs]

/-- Witness for C5: a document with one good bolt entry and one entry of
unresolvable type "unknowntype" loads both, the bad one with type NULL. -/
theorem outfit_load_partial_failure_tolerant_witness :
    outfit_load env0 (mkOutfitsDoc ([goodEntry] ++ badTypeEntry "Broken" "unknowntype" [] :: [])) =
      (0, loadEntries env0 [goodEntry] ++
            outfit_parse env0 (badTypeEntry "Broken" "unknowntype" []) :: loadEntries env0 []) ∧
    (outfit_parse env0 (badTypeEntry "Broken" "unknowntype" [])).type = .NULL ∧
    (outfit_parse env0 (badTypeEntry "Broken" "unknowntype" [])).name = some "Broken" :=
  outfit_load_partial_failure_tolerant env0 [goodEntry] [] "Broken" "unknowntype" []
    (by decide)

/-- Invariant of the inner scan of outfit_getTech: starting from a best that
is type-correct and fresh-named, the scan result is type-correct, fresh,
taken from the start best or the scanned list, and is a price lower bound
for every fresh-named candidate of the type in the scanned list and for the
start best. -/
theorem selGo_spec (t : OutfitType) (ns : List (Option String)) :
    ∀ (l : List Outfit) (best : Option Outfit),
      (∀ b, best = some b → b.type = t ∧ b.name ∉ ns) →
      ∀ o, l.foldl (selStep t ns) best = some o →
        (o.type = t ∧ o.name ∉ ns) ∧
        (best = some o ∨ o ∈ l) ∧
        (∀ c ∈ l, c.type = t → c.name ∉ ns → o.price ≤ c.price) ∧
        (∀ b, best = some b → o.price ≤ b.price) := by
  intro l
  induction l with
  | nil =>
    intro best hInv o h
    simp only [List.foldl_nil] at h
    refine ⟨hInv o h, Or.inl h, by simp, ?_⟩
    intro b hb
    rw [h] at hb
    injection hb with hb
    rw [hb]
  | cons c l ih =>
    intro best hInv o h
    rw [List.foldl_cons] at h
    have hstep :
        (∀ b, selStep t ns best c = some b →
          (b.type = t ∧ b.name ∉ ns) ∧ (best = some b ∨ b = c) ∧
          (∀ bb, best = some bb → b.price ≤ bb.price)) ∧
        (c.type = t → c.name ∉ ns → ∃ b, selStep t ns best c = some b ∧ b.price ≤ c.price) ∧
        (∀ bb, best = some bb → ∃ b, selStep t ns best c = some b ∧ b.price ≤ bb.price) := by
      by_cases hct : c.type = t
      · cases best with
        | none =>
          by_cases hcn : c.name ∈ ns
          · refine ⟨?_, ?_, ?_⟩
            · intro b hb
              simp [selStep, hct, hcn] at hb
            · intro _ hfr
              exact absurd hcn hfr
            · intro bb hbb
              cases hbb
          · refine ⟨?_, ?_, ?_⟩
            · intro b hb
              simp only [selStep, if_pos hct, if_neg hcn] at hb
              injection hb with hb
              subst hb
              exact ⟨⟨hct, hcn⟩, Or.inr rfl, fun bb hbb => by cases hbb⟩
            · intro _ _
              refine ⟨c, ?_, le_refl _⟩
              simp [selStep, hct, hcn]
            · intro bb hbb
              cases hbb
        | some b0 =>
          have hb0 := hInv b0 rfl
          by_cases hlt : b0.price > c.price
          · by_cases hcn : c.name ∈ ns
            · refine ⟨?_, ?_, ?_⟩
              · intro b hb
                simp only [selStep, if_pos hct, if_pos hlt, if_pos hcn] at hb
                injection hb with hb
                subst hb
                refine ⟨hb0, Or.inl rfl, ?_⟩
                intro bb hbb
                injection hbb with hbb
                rw [hbb]
              · intro _ hfr
                exact absurd hcn hfr
              · intro bb hbb
                injection hbb with hbb
                exact ⟨b0, by simp [selStep, hct, hlt, hcn],
                  le_of_eq (congrArg Outfit.price hbb)⟩
            · refine ⟨?_, ?_, ?_⟩
              · intro b hb
                simp only [selStep, if_pos hct, if_pos hlt, if_neg hcn] at hb
                injection hb with hb
                subst hb
                refine ⟨⟨hct, hcn⟩, Or.inr rfl, ?_⟩
                intro bb hbb
                injection hbb with hbb
                subst hbb
                exact le_of_lt hlt
              · intro _ _
                refine ⟨c, ?_, le_refl _⟩
                simp [selStep, hct, hlt, hcn]
              · intro bb hbb
                injection hbb with hbb
                subst hbb
                refine ⟨c, ?_, le_of_lt hlt⟩
                simp [selStep, hct, hlt, hcn]
          · refine ⟨?_, ?_, ?_⟩
            · intro b hb
              simp only [selStep, if_pos hct, if_neg hlt] at hb
              injection hb with hb
              subst hb
              refine ⟨hb0, Or.inl rfl, ?_⟩
              intro bb hbb
              injection hbb with hbb
              rw [hbb]
            · intro _ _
              refine ⟨b0, ?_, le_of_not_lt hlt⟩
              simp [selStep, hct, hlt]
            · intro bb hbb
              injection hbb with hbb
              exact ⟨b0, by simp [selStep, hct, hlt],
                le_of_eq (congrArg Outfit.price hbb)⟩
      · refine ⟨?_, ?_, ?_⟩
        · intro b hb
          simp only [selStep, if_neg hct] at hb
          exact ⟨hInv b hb, Or.inl hb, fun bb hbb => by rw [hb] at hbb; injection hbb with hbb; rw [hbb]⟩
        · intro hxt _
          exact absurd hxt hct
        · intro bb hbb
          refine ⟨bb, ?_, le_refl _⟩
          simp [selStep, hct, hbb]
    obtain ⟨hA, hB, hC⟩ := hstep
    have ihres := ih (selStep t ns best c) (fun b hb => (hA b hb).1) o h
    obtain ⟨hOT, hMem, hMin, hBest⟩ := ihres
    refine ⟨hOT, ?_, ?_, ?_⟩
    · rcases hMem with hM | hM
      · rcases (hA o hM).2.1 with h1 | h1
        · exact Or.inl h1
        · subst h1
          exact Or.inr (List.mem_cons_self _ _)
      · exact Or.inr (List.mem_cons_of_mem c hM)
    · intro x hx hxt hxn
      rcases List.mem_cons.mp hx with rfl | hx'
      · obtain ⟨b, hbEq, hble⟩ := hB hxt hxn
        exact le_trans (hBest b hbEq) hble
      · exact hMin x hx' hxt hxn
    · intro bb hbb
      obtain ⟨b, hbEq, hble⟩ := hC bb hbb
      exact le_trans (hBest b hbEq) hble

/-- The inner scan, when it returns an outfit, returns a fresh-named
candidate of the requested type of minimal price among those. -/
theorem selectCheapest_some {cands : List Outfit} {t : OutfitType}
    {ns : List (Option String)} {o : Outfit}
    (h : selectCheapest cands t ns = some o) :
    o ∈ cands ∧ o.type = t ∧ o.name ∉ ns ∧
      ∀ c ∈ cands, c.type = t → c.name ∉ ns → o.price ≤ c.price := by
  have hs := selGo_spec t ns cands none (fun b hb => by cases hb) o h
  obtain ⟨⟨hT, hF⟩, hM, hMin, -⟩ := hs
  rcases hM with hM | hM
  · cases hM
  · exact ⟨hM, hT, hF, hMin⟩

/-- Filtering with a stronger predicate keeps at most as many elements. -/
theorem length_filter_le_of_imp {α : Type} (l : List α) (p q : α → Bool)
    (himp : ∀ a, p a = true → q a = true) :
    (l.filter p).length ≤ (l.filter q).length := by
  induction l with
  | nil => simp
  | cons a l ih =>
    rw [List.filter_cons, List.filter_cons]
    by_cases hpa : p a = true
    · rw [if_pos hpa, if_pos (himp a hpa)]
      simpa using ih
    · rw [if_neg hpa]
      by_cases hqa : q a = true
      · rw [if_pos hqa]
        exact le_trans ih (by simp)
      · rw [if_neg hqa]
        exact ih

/-- Filtering with a strictly stronger predicate (one list element passes the
weak one only) keeps strictly fewer elements. -/
theorem length_filter_lt_of_witness {α : Type} (l : List α) (p q : α → Bool)
    (himp : ∀ a, p a = true → q a = true) (x : α) (hx : x ∈ l)
    (hqx : q x = true) (hpx : p x = false) :
    (l.filter p).length < (l.filter q).length := by
  induction l with
  | nil => cases hx
  | cons a l ih =>
    rw [List.filter_cons, List.filter_cons]
    rcases List.mem_cons.mp hx with rfl | hx'
    · rw [if_neg (by simp [hpx]), if_pos hqx]
      exact Nat.lt_succ_of_le (length_filter_le_of_imp l p q himp)
    · by_cases hpa : p a = true
      · rw [if_pos hpa, if_pos (himp a hpa)]
        simpa using ih hx'
      · rw [if_neg hpa]
        by_cases hqa : q a = true
        · rw [if_pos hqa]
          exact lt_of_lt_of_le (ih hx') (by simp)
        · rw [if_neg hqa]
          exact ih hx'

/-- A successful inner scan implies at least one fresh-named candidate. -/
theorem freshCount_pos_of_some {cands : List Outfit} {t : OutfitType}
    {ns : List (Option String)} {o : Outfit}
    (h : selectCheapest cands t ns = some o) :
    0 < freshCount cands t ns := by
  obtain ⟨hmem, hT, hF, -⟩ := selectCheapest_some h
  have hof : o ∈ cands.filter (fun c => decide (c.type = t ∧ c.name ∉ ns)) :=
    List.mem_filter.mpr ⟨hmem, by simp [hT, hF]⟩
  exact List.length_pos_of_mem hof

/-- Emitting the scanned name consumes one fresh-named candidate. -/
theorem freshCount_dec_of_some {cands : List Outfit} {t : OutfitType}
    {ns : List (Option String)} {o : Outfit}
    (h : selectCheapest cands t ns = some o) :
    freshCount cands t (ns ++ [o.name]) < freshCount cands t ns := by
  obtain ⟨hmem, hT, hF, -⟩ := selectCheapest_some h
  apply length_filter_lt_of_witness cands _ _ ?_ o hmem ?_ ?_
  · intro a ha
    have hh := of_decide_eq_true ha
    exact decide_eq_true ⟨hh.1, fun hm => hh.2 (List.mem_append_left _ hm)⟩
  · exact decide_eq_true ⟨hT, hF⟩
  · apply decide_eq_false
    intro hcon
    exact hcon.2 (List.mem_append_right _ (List.mem_singleton.mpr rfl))

/-- Behaviour of the per-type emission loop, for any fuel: it appends a block
of (name, price) pairs, each taken from a fresh-named candidate of the type,
with pairwise-distinct names and nondecreasing prices. -/
theorem emitTypeAux_spec (cands : List Outfit) (t : OutfitType) :
    ∀ (fuel : Nat) (acc : List (Option String × Int)),
      ∃ d, emitTypeAux fuel cands t acc = acc ++ d ∧
        (∀ p ∈ d, (∃ o, o ∈ cands ∧ o.type = t ∧ p = (o.name, o.price)) ∧
          p.1 ∉ acc.map Prod.fst) ∧
        (d.map Prod.fst).Nodup ∧
        d.Pairwise (fun p q => p.2 ≤ q.2) := by
  intro fuel
  induction fuel with
  | zero =>
    intro acc
    exact ⟨[], by simp [emitTypeAux], by simp, by simp, by simp⟩
  | succ fuel ih =>
    intro acc
    cases hsel : selectCheapest cands t (acc.map Prod.fst) with
    | none =>
      exact ⟨[], by simp [emitTypeAux, hsel], by simp, by simp, by simp⟩
    | some o =>
      obtain ⟨hmem, hT, hF, hMin⟩ := selectCheapest_some hsel
      obtain ⟨d, hEq, hProps, hNodup, hPW⟩ := ih (acc ++ [(o.name, o.price)])
      refine ⟨(o.name, o.price) :: d, ?_, ?_, ?_, ?_⟩
      · simp [emitTypeAux, hsel, hEq]
      · intro p hp
        rcases List.mem_cons.mp hp with rfl | hp'
        · exact ⟨⟨o, hmem, hT, rfl⟩, hF⟩
        · obtain ⟨hex, hfr⟩ := hProps p hp'
          refine ⟨hex, ?_⟩
          intro hm
          exact hfr (by simp [hm])
      · rw [List.map_cons, List.nodup_cons]
        constructor
        · intro hmm
          obtain ⟨p, hp, hp1⟩ := List.mem_map.mp hmm
          exact (hProps p hp).2 (by simp [hp1])
        · exact hNodup
      · rw [List.pairwise_cons]
        constructor
        · intro q hq
          obtain ⟨⟨oq, hoqmem, hoqT, rfl⟩, hfrq⟩ := hProps q hq
          have hfr' : oq.name ∉ acc.map Prod.fst := fun hm => hfrq (by simp [hm])
          exact hMin oq hoqmem hoqT hfr'
        · exact hPW

/-- The fuel passed by emitType is irrelevant as long as it is at least the
number of fresh-named candidates of the type: any such fuel lets the loop
run until the scan finds nothing, so emitType computes the unbounded loop of
the source. -/
theorem emitTypeAux_fuel_irrelevant (cands : List Outfit) (t : OutfitType) :
    ∀ (f1 f2 : Nat) (acc : List (Option String × Int)),
      freshCount cands t (acc.map Prod.fst) ≤ f1 →
      freshCount cands t (acc.map Prod.fst) ≤ f2 →
      emitTypeAux f1 cands t acc = emitTypeAux f2 cands t acc := by
  intro f1
  induction f1 with
  | zero =>
    intro f2 acc h1 h2
    cases f2 with
    | zero => rfl
    | succ f2 =>
      cases hsel : selectCheapest cands t (acc.map Prod.fst) with
      | none => simp [emitTypeAux, hsel]
      | some o =>
        have := freshCount_pos_of_some hsel
        omega
  | succ f1 ih =>
    intro f2 acc h1 h2
    cases f2 with
    | zero =>
      cases hsel : selectCheapest cands t (acc.map Prod.fst) with
      | none => simp [emitTypeAux, hsel]
      | some o =>
        have := freshCount_pos_of_some hsel
        omega
    | succ f2 =>
      cases hsel : selectCheapest cands t (acc.map Prod.fst) with
      | none => simp [emitTypeAux, hsel]
      | some o =>
        have hdec := freshCount_dec_of_some hsel
        have hmap : (acc ++ [(o.name, o.price)]).map Prod.fst =
            acc.map Prod.fst ++ [o.name] := by simp
        simp only [emitTypeAux, hsel]
        apply ih
        · rw [hmap]; omega
        · rw [hmap]; omega

/-- Behaviour of the outer type loop of outfit_getTech: it emits one block
per visited type, in visiting order, each block drawn from candidates of its
type with nondecreasing prices, and no name is emitted twice. -/
theorem getTechGo_spec (cands : List Outfit) :
    ∀ (ts : List OutfitType) (acc : List (Option String × Int)),
      ∃ blocks : List (List (Option String × Int)),
        List.Forall₂ (fun ty blk =>
            (∀ p ∈ blk, ∃ o, o ∈ cands ∧ o.type = ty ∧ p = (o.name, o.price)) ∧
            blk.Pairwise (fun p q => p.2 ≤ q.2)) ts blocks ∧
        ts.foldl (fun a ty => emitType cands ty a) acc = acc ++ blocks.flatten ∧
        (∀ p ∈ blocks.flatten, p.1 ∉ acc.map Prod.fst) ∧
        (blocks.flatten.map Prod.fst).Nodup := by
  intro ts
  induction ts with
  | nil =>
    intro acc
    exact ⟨[], List.Forall₂.nil, by simp, by simp, by simp⟩
  | cons ty ts ih =>
    intro acc
    obtain ⟨d, hEq, hProps, hNodup, hPW⟩ :=
      emitTypeAux_spec cands ty (freshCount cands ty (acc.map Prod.fst)) acc
    have hEmit : emitType cands ty acc = acc ++ d := hEq
    obtain ⟨blocks, hF2, hFold, hFresh, hND⟩ := ih (acc ++ d)
    refine ⟨d :: blocks, ?_, ?_, ?_, ?_⟩
    · exact List.Forall₂.cons ⟨fun p hp => (hProps p hp).1, hPW⟩ hF2
    · rw [List.foldl_cons, hEmit, hFold]
      simp
    · intro p hp
      rw [List.flatten_cons] at hp
      rcases List.mem_append.mp hp with hp' | hp'
      · exact (hProps p hp').2
      · intro hm
        exact hFresh p hp' (by simp [hm])
    · rw [List.flatten_cons, List.map_append, List.nodup_append]
      refine ⟨hNodup, hND, ?_⟩
      intro x hx hx2
      obtain ⟨p, hp, rfl⟩ := List.mem_map.mp hx2
      exact hFresh p hp (by simp [hx])

/-- C2 amended: the getByTech listing is grouped by exact (specific) outfit
type in the fixed enum order - one block per type - with each block's
prices nondecreasing and no name emitted twice anywhere in the listing
(the duplicate check of the source spans the whole output). -/
theorem outfit_getTech_type_grouped_price_sorted
    (stack : List Outfit) (t0 : Int) (trest : List Int) :
    ∃ blocks : List (List (Option String × Int)),
      List.Forall₂ (fun ty blk =>
          (∀ p ∈ blk, ∃ o, o ∈ techFilter stack t0 trest ∧ o.type = ty ∧
            p = (o.name, o.price)) ∧
          blk.Pairwise (fun p q => p.2 ≤ q.2)) allTypes blocks ∧
      outfit_getTech stack t0 trest = blocks.flatten.map Prod.fst ∧
      (blocks.flatten.map Prod.fst).Nodup := by
  obtain ⟨blocks, hF2, hFold, hFresh, hND⟩ :=
    getTechGo_spec (techFilter stack t0 trest) allTypes []
  refine ⟨blocks, hF2, ?_, hND⟩
  simp only [outfit_getTech, getTechPairs]
  rw [hFold]
  simp

/-- C2 counterexample: on a catalog with a bolt, a beam and a bolt turret
(all tech 0), the listing is A, B, C whose broad types are Bolt Weapon,
Beam Weapon, Bolt Weapon - the output is not grouped by broad type, because
the source groups by exact type in enum order and the bolt-turret type sits
after the beam type. -/
theorem outfit_getTech_not_broad_grouped :
    outfit_getTech stack3 0 [] = [some "A", some "B", some "C"] ∧
    (outfit_getTech stack3 0 []).map (broadOfName stack3) =
      [some "Bolt Weapon", some "Beam Weapon", some "Bolt Weapon"] ∧
    ¬ IsGroupedList ((outfit_getTech stack3 0 []).map (broadOfName stack3)) := by
  refine ⟨by decide, by decide, by decide⟩

/-- The union misread of the turret-beam accessors arises from real parses:
an entry of type "turret beam" is dispatched to the beam parser (storing the
payload through u.bem), after which outfit_speed reads the union through
u.blt and so never reaches its stored data or its sentinel. -/
theorem outfit_parse_turret_beam_misread (env : ExtEnv) :
    (outfit_parse env tbeamEntry).type = .TURRET_BEAM ∧
    payloadMatches (outfit_parse env tbeamEntry).type (outfit_parse env tbeamEntry).u = true ∧
    outfit_speed (outfit_parse env tbeamEntry) = none :=
  ⟨rfl, rfl, rfl⟩
